import Mathlib

/- Verification development for the bimodal gesture recognition frontend
   (src/frontend/src/App.js).  The component reconciles two prediction
   sources (a polled Flex backend and a socket-driven MediaPipe Vision
   backend) into a combined verdict while rendering annotated frames.
   All definitions below are shallow embeddings of the JavaScript in
   App.js; asynchronous behavior is modelled as an explicit event-trace
   state machine. -/

namespace GestureApp

/-- Lowercase a string character by character, modelling the JS
toLowerCase call as it acts on the ASCII gesture labels. -/
def jsToLower (s : String) : String := String.mk (s.data.map Char.toLower)

/-- Uppercase a string character by character, modelling the JS
toUpperCase call used when building the MATCH banner text. -/
def jsToUpper (s : String) : String := String.mk (s.data.map Char.toUpper)

/-- JS template interpolation of a possibly absent string: an undefined
value prints as the text undefined. -/
def jsShowOpt (o : Option String) : String := o.getD "undefined"

/-- JS truthiness of an optional gesture label, as tested by the guard
in the combined-result effect: undefined, null and the empty string are
all falsy, so an empty label counts as absent. -/
def jsTruthyGesture : Option String → Option String
  | some g => if g = "" then none else some g
  | none => none

/-- The JS expression x or-else null applied to an optional number: the
number 0 is falsy and is replaced by null, as in data.confidence. -/
def jsOrNullQ : Option ℚ → Option ℚ
  | some x => if x = 0 then none else some x
  | none => none

/-- A detection box from a Vision frame event, in native image pixel
coordinates.  The label is optional because the handler reads it with
optional chaining.  The confidence is kept as its decoded numeric token
string, since only its textual form (the template interpolation in
fillText) enters the behavior verified here. -/
structure DetectionBox where
  x1 : ℚ
  y1 : ℚ
  x2 : ℚ
  y2 : ℚ
  label : Option String
  confidence : String
deriving DecidableEq

/-- One Vision frame event payload: the decoded image dimensions and the
ordered prediction list carried by the new_frame socket event. -/
structure Frame where
  imageW : ℚ
  imageH : ℚ
  predictions : List DetectionBox
deriving DecidableEq

/-- The MediaPipe prediction stored by setMediapipePrediction. -/
structure VisionPrediction where
  gesture : Option String
  confidence : String
deriving DecidableEq

/-- The Flex prediction stored by setFlexPrediction. -/
structure FlexPrediction where
  gesture : Option String
  confidence : Option ℚ
  classId : Option Int
deriving DecidableEq

/-- Auxiliary per-channel raw and voltage values, passed through
verbatim for display; their shape is irrelevant to the claims. -/
abbrev FlexValues := List (String × ℚ)

/-- The parsed JSON body of a successful Flex predict response. -/
structure FlexData where
  gesture : Option String
  confidence : Option ℚ
  predicted_class : Option Int
  latest_values : Option FlexValues
deriving DecidableEq

/-- The externally visible Flex adapter state: prediction, channel
values, connected flag and error message. -/
structure FlexState where
  prediction : Option FlexPrediction
  values : Option FlexValues
  connected : Bool
  error : Option String
deriving DecidableEq

/-- The outcome of one Flex poll cycle.  netError is a rejected fetch.
Otherwise the fetch resolved with an HTTP status (ok records whether it
was a success status) and a body that either parsed as JSON or did not.
Note that fetch does not reject on a non-success status, and the code
never reads res.ok, so ok only matters through the body. -/
inductive FlexResponse
  | netError
  | response (ok : Bool) (body : Option FlexData)
deriving DecidableEq

/-- The state update performed by fetchFlexPrediction once its request
settles (App.js lines 38 to 54).  A rejected fetch or a body that fails
to parse lands in the catch block; a parsed body takes the success path
regardless of the HTTP status. -/
def fetchFlexApply (r : FlexResponse) (s : FlexState) : FlexState :=
  match r with
  | .netError => { s with error := some "Cannot reach Flex backend", connected := false }
  | .response _ none => { s with error := some "Cannot reach Flex backend", connected := false }
  | .response _ (some d) =>
      { prediction := some { gesture := d.gesture.map jsToLower
                           , confidence := jsOrNullQ d.confidence
                           , classId := d.predicted_class }
      , values := d.latest_values
      , connected := true
      , error := none }

/-- A rectangle of the canvas draw plan (strokeRect arguments). -/
structure RectSpec where
  x : ℚ
  y : ℚ
  w : ℚ
  h : ℚ
deriving DecidableEq

/-- A text item of the canvas draw plan (fillText arguments). -/
structure TextSpec where
  text : String
  x : ℚ
  y : ℚ
deriving DecidableEq

/-- The draw plan produced by the img.onload callback: the scaled image
size, plus an optional rectangle and label text when a box is drawn. -/
structure DrawPlan where
  imageW : ℚ
  imageH : ℚ
  rect : Option RectSpec
  text : Option TextSpec
deriving DecidableEq

/-- The draw plan computed by img.onload (App.js lines 106 to 135) for
an image of native size w by h and an optional primary detection box:
scale is 480 divided by the native width, the image is drawn at the
scaled size, and a present box yields a scaled rectangle plus a label
text anchored 8 units above the top edge of the rectangle. -/
def renderFrame (w h : ℚ) (box : Option DetectionBox) : DrawPlan :=
  let scale := 480 / w
  { imageW := 480
  , imageH := h * scale
  , rect := box.map fun b =>
      { x := b.x1 * scale, y := b.y1 * scale
      , w := (b.x2 - b.x1) * scale, h := (b.y2 - b.y1) * scale }
  , text := box.map fun b =>
      { text := jsShowOpt b.label ++ " (" ++ b.confidence ++ ")"
      , x := b.x1 * scale, y := b.y1 * scale - 8 } }

/-- The draw plan of a whole frame: the first box of the prediction list
is the primary one; an empty list draws the bare image. -/
def frameDrawPlan (f : Frame) : DrawPlan :=
  renderFrame f.imageW f.imageH f.predictions.head?

/-- The prediction stored when a frame finishes decoding: derived from
the first box if the list is nonempty, and the explicit null written by
setMediapipePrediction otherwise. -/
def framePredictionUpdate (f : Frame) : Option VisionPrediction :=
  f.predictions.head?.map fun b => { gesture := b.label.map jsToLower, confidence := b.confidence }

/-- Status discriminant of the combined result. -/
inductive MatchStatus
  | waiting
  | matched
  | mismatch
deriving DecidableEq

/-- The matchResult object kept in component state. -/
structure MatchResult where
  status : MatchStatus
  message : String
deriving DecidableEq

/-- The combined-result computation of the useEffect at App.js lines 247
to 267: waiting when either gesture is JS-falsy, otherwise matched or
mismatch by string equality of the stored (already lower-cased)
labels. -/
def computeMatchResult (fp : Option FlexPrediction) (vp : Option VisionPrediction) : MatchResult :=
  match jsTruthyGesture (fp.bind FlexPrediction.gesture),
        jsTruthyGesture (vp.bind VisionPrediction.gesture) with
  | some fg, some vg =>
      if fg = vg then
        { status := .matched, message := "✅ MATCH: " ++ jsToUpper fg }
      else
        { status := .mismatch, message := "❌ MISMATCH — Flex: " ++ fg ++ ", MediaPipe: " ++ vg }
  | _, _ => { status := .waiting, message := "Waiting for predictions..." }

/-- The whole externally visible component state modelled by the
machine: adapter lifecycle flags, the Flex substate, the MediaPipe
prediction and connectivity, the canvas, the decodes requested but not
yet completed, and what the canvas currently displays. -/
structure AppState where
  flexTimerActive : Bool
  inFlightPolls : Nat
  socketActive : Bool
  isRunning : Bool
  flex : FlexState
  mediapipePrediction : Option VisionPrediction
  mediapipeConnected : Bool
  canvasMounted : Bool
  pendingDecodes : List (Nat × Frame)
  displayedFrame : Option Nat
  displayedPlan : Option DrawPlan
  matchResult : MatchResult
deriving DecidableEq

/-- Observable side effects of the lifecycle functions: timer creation
and cancellation, socket connection and teardown, and issuing one Flex
poll request. -/
inductive Effect
  | setIntervalEff
  | clearIntervalEff
  | socketConnectEff
  | socketDisconnectEff
  | flexRequestEff
deriving DecidableEq

/-- startFlexPolling (App.js lines 56 to 59): creates the interval only
when none is outstanding. -/
def startFlexPolling (s : AppState) : AppState × List Effect :=
  if s.flexTimerActive then (s, [])
  else ({ s with flexTimerActive := true }, [Effect.setIntervalEff])

/-- stopFlexPolling (App.js lines 61 to 66): clears the interval only
when one is outstanding. -/
def stopFlexPolling (s : AppState) : AppState × List Effect :=
  if s.flexTimerActive then ({ s with flexTimerActive := false }, [Effect.clearIntervalEff])
  else (s, [])

/-- connectMediapipe (App.js lines 69 to 137): opens the socket only
when none is present. -/
def connectMediapipe (s : AppState) : AppState × List Effect :=
  if s.socketActive then (s, [])
  else ({ s with socketActive := true }, [Effect.socketConnectEff])

/-- disconnectMediapipe (App.js lines 139 to 145): tears the socket down
and clears the connected flag only when a socket is present. -/
def disconnectMediapipe (s : AppState) : AppState × List Effect :=
  if s.socketActive then
    ({ s with socketActive := false, mediapipeConnected := false }, [Effect.socketDisconnectEff])
  else (s, [])

/-- startAll (App.js lines 272 to 276): start polling, connect the
socket, set the running flag. -/
def startAllF (s : AppState) : AppState × List Effect :=
  let p1 := startFlexPolling s
  let p2 := connectMediapipe p1.1
  ({ p2.1 with isRunning := true }, p1.2 ++ p2.2)

/-- stopAll (App.js lines 278 to 282): stop polling, disconnect the
socket, clear the running flag. -/
def stopAllF (s : AppState) : AppState × List Effect :=
  let p1 := stopFlexPolling s
  let p2 := disconnectMediapipe p1.1
  ({ p2.1 with isRunning := false }, p1.2 ++ p2.2)

/-- Remove the first pending decode with the given sequence number,
returning its frame and the remaining list. -/
def takePending (seq : Nat) : List (Nat × Frame) → Option (Frame × List (Nat × Frame))
  | [] => none
  | p :: rest =>
      if p.1 = seq then some (p.2, rest)
      else (takePending seq rest).map fun q => (q.1, p :: q.2)

/-- External events driving the component: the two buttons, the
interval firing, a poll request settling, a new_frame socket event
(tagged with the sequence number of the decode it starts), an image
decode completing, and the canvas mounting or unmounting. -/
inductive Event
  | startAll
  | stopAll
  | pollTick
  | pollComplete (r : FlexResponse)
  | newFrame (seq : Nat) (f : Frame)
  | decodeComplete (seq : Nat)
  | mountCanvas
  | unmountCanvas
deriving DecidableEq

/-- One transition of the component, before the combined-result effect
reruns.  none means the event leaves the state entirely untouched.  A
pollComplete applies fetchFlexPrediction unconditionally: the code
checks no still-active flag.  A newFrame is dropped when the canvas ref
is null (App.js lines 99 to 100); otherwise it only requests a decode.
A decodeComplete applies the img.onload body of whichever requested
frame finished, with no sequence comparison. -/
def stepCore (e : Event) (s : AppState) : Option (AppState × List Effect) :=
  match e with
  | .startAll => some (startAllF s)
  | .stopAll => some (stopAllF s)
  | .pollTick =>
      if s.flexTimerActive then
        some ({ s with inFlightPolls := s.inFlightPolls + 1 }, [Effect.flexRequestEff])
      else none
  | .pollComplete r =>
      if s.inFlightPolls = 0 then none
      else some ({ s with inFlightPolls := s.inFlightPolls - 1, flex := fetchFlexApply r s.flex }, [])
  | .newFrame seq f =>
      if s.socketActive && s.canvasMounted then
        some ({ s with pendingDecodes := s.pendingDecodes ++ [(seq, f)] }, [])
      else none
  | .decodeComplete seq =>
      match takePending seq s.pendingDecodes with
      | none => none
      | some q =>
          some ({ s with
                    pendingDecodes := q.2,
                    displayedFrame := some seq,
                    displayedPlan := some (frameDrawPlan q.1),
                    mediapipePrediction := framePredictionUpdate q.1 }, [])
  | .mountCanvas => some ({ s with canvasMounted := true }, [])
  | .unmountCanvas => some ({ s with canvasMounted := false }, [])

/-- Rerun of the combined-result useEffect: matchResult is recomputed
wholesale from the two current predictions. -/
def withVerdict (s : AppState) : AppState :=
  { s with matchResult := computeMatchResult s.flex.prediction s.mediapipePrediction }

/-- One full event step: the core transition followed by the
combined-result recomputation. -/
def step (e : Event) (s : AppState) : AppState × List Effect :=
  match stepCore e s with
  | none => (s, [])
  | some p => (withVerdict p.1, p.2)

/-- The state after one event. -/
def next (e : Event) (s : AppState) : AppState := (step e s).1

/-- The component state right after mount (App.js lines 12 to 35): no
timer, no socket, nothing running, empty predictions, canvas ref still
null, waiting verdict. -/
def initState : AppState :=
  { flexTimerActive := false
  , inFlightPolls := 0
  , socketActive := false
  , isRunning := false
  , flex := { prediction := none, values := none, connected := false, error := none }
  , mediapipePrediction := none
  , mediapipeConnected := false
  , canvasMounted := false
  , pendingDecodes := []
  , displayedFrame := none
  , displayedPlan := none
  , matchResult := { status := MatchStatus.waiting, message := "Waiting for predictions..." } }

/-- The state reached by a list of events from the initial state. -/
def run (t : List Event) : AppState := t.foldl (fun s e => next e s) initState

/-- The matchResult field always equals the reconciler applied to the
two current predictions. -/
def verdictDerived (s : AppState) : Prop :=
  s.matchResult = computeMatchResult s.flex.prediction s.mediapipePrediction

lemma verdictDerived_withVerdict (s : AppState) : verdictDerived (withVerdict s) := by
  simp [verdictDerived, withVerdict]

lemma verdictDerived_next (e : Event) (s : AppState) (h : verdictDerived s) :
    verdictDerived (next e s) := by
  unfold next step
  cases hc : stepCore e s with
  | none => simpa using h
  | some p => simpa using verdictDerived_withVerdict p.1

lemma verdictDerived_run (t : List Event) : verdictDerived (run t) := by
  unfold run
  have hgen : ∀ s : AppState, verdictDerived s →
      verdictDerived (t.foldl (fun s e => next e s) s) := by
    induction t with
    | nil => intro s h; simpa using h
    | cons e t ih =>
        intro s h
        simpa using ih (next e s) (verdictDerived_next e s h)
  exact hgen initState rfl

lemma next_of_core_none (e : Event) (s : AppState) (h : stepCore e s = none) : next e s = s := by
  unfold next step
  rw [h]

lemma run_snoc (t : List Event) (e : Event) : run (t ++ [e]) = next e (run t) := by
  simp [run, List.foldl_append]

lemma next_stopAll_flags (s : AppState) :
    (next Event.stopAll s).flexTimerActive = false ∧
    (next Event.stopAll s).socketActive = false ∧
    (next Event.stopAll s).isRunning = false := by
  unfold next step stepCore stopAllF stopFlexPolling disconnectMediapipe withVerdict
  by_cases h1 : s.flexTimerActive <;> by_cases h2 : s.socketActive <;> simp [h1, h2]

lemma next_startAll_flags (s : AppState) :
    (next Event.startAll s).flexTimerActive = true ∧
    (next Event.startAll s).socketActive = true ∧
    (next Event.startAll s).isRunning = true := by
  unfold next step stepCore startAllF startFlexPolling connectMediapipe withVerdict
  by_cases h1 : s.flexTimerActive <;> by_cases h2 : s.socketActive <;> simp [h1, h2]

lemma step_stopAll_of_stopped (s : AppState) (h1 : s.flexTimerActive = false)
    (h2 : s.socketActive = false) (h3 : s.isRunning = false) (h4 : verdictDerived s) :
    step Event.stopAll s = (s, []) := by
  simp only [verdictDerived] at h4
  rcases s with ⟨a, b, c, d, e, f, g, hc, i, j, k, l⟩
  simp_all [step, stepCore, stopAllF, stopFlexPolling, disconnectMediapipe, withVerdict]

lemma step_startAll_of_started (s : AppState) (h1 : s.flexTimerActive = true)
    (h2 : s.socketActive = true) (h3 : s.isRunning = true) (h4 : verdictDerived s) :
    step Event.startAll s = (s, []) := by
  simp only [verdictDerived] at h4
  rcases s with ⟨a, b, c, d, e, f, g, hc, i, j, k, l⟩
  simp_all [step, stepCore, startAllF, startFlexPolling, connectMediapipe, withVerdict]

/-- A frame whose prediction list is empty. -/
def frameA : Frame := { imageW := 960, imageH := 720, predictions := [] }

/-- The detection box of the worked example in the specification. -/
def fistBox : DetectionBox :=
  { x1 := 10, y1 := 20, x2 := 110, y2 := 120, label := some "fist", confidence := "0.92" }

/-- A frame carrying one detection box. -/
def frameB : Frame := { imageW := 960, imageH := 720, predictions := [fistBox] }

/-- A session in which frame 5 and then frame 6 are requested and the
decode of frame 6 completes first and is applied. -/
def overtakePrefix : List Event :=
  [Event.mountCanvas, Event.startAll, Event.newFrame 5 frameA, Event.newFrame 6 frameB,
   Event.decodeComplete 6]

/-- The same session after the stale decode of frame 5 also completes. -/
def overtakeTrace : List Event := overtakePrefix ++ [Event.decodeComplete 5]

/-- A well-formed Flex predict body with a capitalised label. -/
def flexGood : FlexData :=
  { gesture := some "Fist", confidence := none, predicted_class := some 2, latest_values := none }

/-- A session that starts, has one poll request go in flight, and is
then stopped while that request is still pending. -/
def stopCut : List Event := [Event.startAll, Event.pollTick, Event.stopAll]

/-- The same session after the in-flight poll settles successfully,
which happens after stopAll has fully applied. -/
def stopCutLate : List Event :=
  stopCut ++ [Event.pollComplete (FlexResponse.response true (some flexGood))]

/-- A Flex state currently in the failed condition, with no stored
prediction. -/
def flexErrState : FlexState :=
  { prediction := none, values := none, connected := false
  , error := some "Cannot reach Flex backend" }

/-- C1: for every pair of current predictions, the combined result is
waiting exactly when either gesture is absent (JS-falsy, which includes
the empty label); otherwise it is the match result with the upper-cased
common label exactly when the two stored lower-cased labels are equal,
and otherwise the mismatch result carrying both labels verbatim; and
along every event trace the stored matchResult equals the reconciler
recomputed from the two current predictions, never an incremental
patch. -/
theorem C1_verdict_reconciler (fp : Option FlexPrediction) (vp : Option VisionPrediction) :
    ((computeMatchResult fp vp).status = MatchStatus.waiting ↔
        jsTruthyGesture (fp.bind FlexPrediction.gesture) = none ∨
        jsTruthyGesture (vp.bind VisionPrediction.gesture) = none) ∧
    (∀ fg vg, jsTruthyGesture (fp.bind FlexPrediction.gesture) = some fg →
        jsTruthyGesture (vp.bind VisionPrediction.gesture) = some vg →
        (((computeMatchResult fp vp).status = MatchStatus.matched ↔ fg = vg) ∧
         (fg = vg → computeMatchResult fp vp =
            { status := MatchStatus.matched, message := "✅ MATCH: " ++ jsToUpper fg }) ∧
         (fg ≠ vg → computeMatchResult fp vp =
            { status := MatchStatus.mismatch,
              message := "❌ MISMATCH — Flex: " ++ fg ++ ", MediaPipe: " ++ vg }))) ∧
    (∀ t : List Event, (run t).matchResult =
        computeMatchResult (run t).flex.prediction (run t).mediapipePrediction) := by
  refine ⟨?_, ?_, fun t => verdictDerived_run t⟩
  · unfold computeMatchResult
    rcases hf : jsTruthyGesture (fp.bind FlexPrediction.gesture) with _ | fg <;>
      rcases hv : jsTruthyGesture (vp.bind VisionPrediction.gesture) with _ | vg <;>
      simp [hf, hv]
    by_cases hev : fg = vg <;> simp [hev]
  · intro fg vg hf hv
    unfold computeMatchResult
    rw [hf, hv]
    by_cases hev : fg = vg <;> simp [hev]

/-- C1 witness: a concrete mismatching pair yields the mismatch result
with both labels preserved. -/
theorem C1_verdict_witness :
    computeMatchResult (some { gesture := some "fist", confidence := none, classId := none })
        (some { gesture := some "palm", confidence := "0.9" }) =
      { status := MatchStatus.mismatch, message := "❌ MISMATCH — Flex: fist, MediaPipe: palm" } :=
  ((C1_verdict_reconciler _ _).2.1 "fist" "palm" (by decide) (by decide)).2.2 (by decide)

/-- C2 counterexample: the handler tracks no sequence number, so after
the decode of the newer frame 6 has been applied, the stale decode of
the older frame 5 is applied as well and overwrites the display (and
even clears the prediction that frame 6 had set). -/
theorem C2_counterexample :
    (run overtakePrefix).displayedFrame = some 6 ∧
    (run overtakePrefix).mediapipePrediction = some { gesture := some "fist", confidence := "0.92" } ∧
    (run overtakeTrace).displayedFrame = some 5 ∧
    (run overtakeTrace).mediapipePrediction = none := by
  decide

/-- C2 amended: the new_frame handler performs no sequence bookkeeping;
every decode completion of a requested frame is applied unconditionally,
so the display always reflects the most recently completed decode,
whatever its request order. -/
theorem C2_amended_last_completed_wins (s : AppState) (seq : Nat) (f : Frame)
    (rest : List (Nat × Frame)) (h : takePending seq s.pendingDecodes = some (f, rest)) :
    (next (Event.decodeComplete seq) s).displayedFrame = some seq ∧
    (next (Event.decodeComplete seq) s).displayedPlan = some (frameDrawPlan f) ∧
    (next (Event.decodeComplete seq) s).mediapipePrediction = framePredictionUpdate f ∧
    (next (Event.decodeComplete seq) s).pendingDecodes = rest := by
  simp only [next, step, stepCore, h]
  simp [withVerdict]

/-- C2 amended witness: a concrete pending decode is applied when it
completes. -/
theorem C2_amended_witness :
    (next (Event.decodeComplete 5)
        { initState with pendingDecodes := [(5, frameA)] }).displayedFrame = some 5 :=
  (C2_amended_last_completed_wins { initState with pendingDecodes := [(5, frameA)] }
    5 frameA [] rfl).1

/-- C3 counterexample: a poll request in flight when stopAll applies is
not discarded; when it settles it still updates the Flex prediction and
health, after stopAll has returned. -/
theorem C3_counterexample :
    (run stopCut).flex.prediction = none ∧
    (run stopCut).isRunning = false ∧
    (run stopCut).flexTimerActive = false ∧
    (run stopCutLate).flex.prediction =
      some { gesture := some "fist", confidence := none, classId := some 2 } ∧
    (run stopCutLate).flex.connected = true := by
  decide

/-- C3 amended: stopAll cancels the polling timer, so no further poll
cycle can begin afterwards, but fetchFlexPrediction checks no
still-active flag: any poll already in flight applies its full result
when it settles, even after stopAll. -/
theorem C3_amended_no_active_flag (s : AppState) (r : FlexResponse) :
    (next Event.stopAll s).flexTimerActive = false ∧
    next Event.pollTick (next Event.stopAll s) = next Event.stopAll s ∧
    (0 < s.inFlightPolls →
      (next (Event.pollComplete r) s).flex = fetchFlexApply r s.flex) := by
  refine ⟨(next_stopAll_flags s).1, ?_, ?_⟩
  · apply next_of_core_none
    unfold stepCore
    simp [(next_stopAll_flags s).1]
  · intro hpos
    unfold next step stepCore
    simp [Nat.pos_iff_ne_zero.mp hpos, withVerdict]

/-- C3 amended witness: a concrete in-flight poll that fails applies the
failure handling even though nothing is running. -/
theorem C3_amended_witness :
    (next (Event.pollComplete FlexResponse.netError)
        { initState with inFlightPolls := 1 }).flex =
      fetchFlexApply FlexResponse.netError initState.flex :=
  (C3_amended_no_active_flag { initState with inFlightPolls := 1 } FlexResponse.netError).2.2
    (by decide)

/-- C4 counterexample: a poll whose fetch resolves with a non-success
HTTP status but a well-formed JSON body takes the success path: the code
never reads the status, so health becomes connected and the error is
cleared, contradicting the claim that a non-success status counts as a
failed cycle. -/
theorem C4_counterexample :
    (fetchFlexApply (FlexResponse.response false (some flexGood)) flexErrState).connected = true ∧
    (fetchFlexApply (FlexResponse.response false (some flexGood)) flexErrState).error = none :=
  ⟨rfl, rfl⟩

/-- C4 amended: a rejected fetch or a body that fails to parse sets
health to disconnected with the fixed message and leaves the stored
prediction and channel values untouched; a fetch that resolves with a
parseable JSON body, whatever its HTTP status, replaces the prediction
and values, sets health to connected and clears the error. -/
theorem C4_amended_flex_failure_handling (s : FlexState) :
    (∀ r : FlexResponse,
        (r = FlexResponse.netError ∨ ∃ ok, r = FlexResponse.response ok none) →
        fetchFlexApply r s =
          { s with connected := false, error := some "Cannot reach Flex backend" }) ∧
    (∀ (ok : Bool) (d : FlexData),
        fetchFlexApply (FlexResponse.response ok (some d)) s =
          { prediction := some { gesture := d.gesture.map jsToLower
                               , confidence := jsOrNullQ d.confidence
                               , classId := d.predicted_class }
          , values := d.latest_values, connected := true, error := none }) := by
  constructor
  · rintro r (rfl | ⟨ok, rfl⟩) <;> rfl
  · intro ok d
    rfl

/-- C4 amended witness: a concrete network error keeps the stored state
and only flips health and error. -/
theorem C4_amended_witness :
    fetchFlexApply FlexResponse.netError flexErrState =
      { flexErrState with connected := false, error := some "Cannot reach Flex backend" } :=
  (C4_amended_flex_failure_handling flexErrState).1 FlexResponse.netError (Or.inl rfl)

/-- C5: for every rendered frame the draw plan uses scale 480 divided by
the native width, draws the image at width 480 and height native height
times scale, draws the rectangle and the label text 8 units above its
top edge; on the worked example (960 wide image, box 10 20 110 120,
label fist, confidence 0.92) the rectangle is x 5 y 10 w 50 h 50 and the
text is fist (0.92). -/
theorem C5_draw_plan :
    (∀ (w h : ℚ) (b : DetectionBox),
      renderFrame w h (some b) =
        { imageW := 480, imageH := h * (480 / w)
        , rect := some { x := b.x1 * (480 / w), y := b.y1 * (480 / w)
                       , w := (b.x2 - b.x1) * (480 / w), h := (b.y2 - b.y1) * (480 / w) }
        , text := some { text := jsShowOpt b.label ++ " (" ++ b.confidence ++ ")"
                       , x := b.x1 * (480 / w), y := b.y1 * (480 / w) - 8 } }) ∧
    (renderFrame 960 720 (some fistBox)).rect = some { x := 5, y := 10, w := 50, h := 50 } ∧
    (renderFrame 960 720 (some fistBox)).text = some { text := "fist (0.92)", x := 5, y := 2 } ∧
    (renderFrame 960 720 (some fistBox)).imageW = 480 ∧
    (renderFrame 960 720 (some fistBox)).imageH = 360 := by
  refine ⟨fun w h b => rfl, ?_, ?_, rfl, ?_⟩
  · simp [renderFrame, fistBox]
    norm_num
  · simp [renderFrame, fistBox, jsShowOpt]
    norm_num
  · simp [renderFrame]
    norm_num

/-- The rotation values offered by the orientation buttons (App.js line
395); these are the only arguments the UI ever passes to
setRotationHandler. -/
def rotationChoices : List Int := [0, 90, 180, 270]

/-- The locally cached camera configuration state. -/
structure CameraState where
  cameraRotation : Int
  flipHorizontal : Bool
  flipVertical : Bool
  cameraConnected : Bool
  cameraUrl : String
deriving DecidableEq

/-- Requests the camera configuration handlers send to the Vision
backend. -/
inductive NetRequest
  | setRotationReq (rotation : Int)
  | setFlipReq (flipH : Bool) (flipV : Bool)
  | stopCameraReq
deriving DecidableEq

/-- Outcome of the set_rotation call: a rejected fetch, or a resolved
reply carrying a status string and the rotation echoed by the
backend. -/
inductive RotationReply
  | netError
  | reply (status : String) (rotation : Int)
deriving DecidableEq

/-- setRotationHandler (App.js lines 199 to 213): the POST is issued
unconditionally, with no client-side validation of the degree value; the
cached rotation is overwritten with the backend echo only when the reply
status is success. -/
def setRotationHandler (deg : Int) (r : RotationReply) (s : CameraState) :
    CameraState × List NetRequest :=
  match r with
  | .netError => (s, [NetRequest.setRotationReq deg])
  | .reply st rot =>
      (if st = "success" then { s with cameraRotation := rot } else s,
       [NetRequest.setRotationReq deg])

/-- A camera state with a connected camera, used as concrete input. -/
def cam0 : CameraState :=
  { cameraRotation := 0, flipHorizontal := true, flipVertical := false
  , cameraConnected := true, cameraUrl := "http://cam" }

/-- C6 counterexample: calling setRotationHandler with 45, a value
outside the accepted set, still issues the network request, refuting the
claim that the call is rejected before any request is made. -/
theorem C6_counterexample :
    (setRotationHandler 45 RotationReply.netError cam0).2 = [NetRequest.setRotationReq 45] ∧
    (45 : Int) ∉ rotationChoices ∧
    (setRotationHandler 45 RotationReply.netError cam0).1 = cam0 := by
  refine ⟨rfl, by decide, rfl⟩

/-- C6 amended: setRotationHandler performs no client-side validation;
for every degree value, 45 included, it issues exactly one set_rotation
request; the cached rotation changes only when the backend replies with
status success, in which case it takes the echoed value, and the UI
orientation buttons only ever invoke the handler with 0, 90, 180 or
270. -/
theorem C6_amended_no_client_validation (deg : Int) (r : RotationReply) (s : CameraState) :
    (setRotationHandler deg r s).2 = [NetRequest.setRotationReq deg] ∧
    (∀ rot, r = RotationReply.reply "success" rot →
        (setRotationHandler deg r s).1 = { s with cameraRotation := rot }) ∧
    (r = RotationReply.netError → (setRotationHandler deg r s).1 = s) ∧
    (∀ st rot, r = RotationReply.reply st rot → st ≠ "success" →
        (setRotationHandler deg r s).1 = s) ∧
    rotationChoices = [0, 90, 180, 270] := by
  refine ⟨?_, ?_, ?_, ?_, rfl⟩
  · cases r <;> rfl
  · rintro rot rfl
    simp [setRotationHandler]
  · rintro rfl
    rfl
  · rintro st rot rfl hst
    simp [setRotationHandler, hst]

/-- C6 amended witness: a concrete successful reply updates the cached
rotation to the echoed value. -/
theorem C6_amended_witness :
    (setRotationHandler 45 (RotationReply.reply "success" 45) cam0).1 =
      { cam0 with cameraRotation := 45 } :=
  (C6_amended_no_client_validation 45 (RotationReply.reply "success" 45) cam0).2.1 45 rfl

/-- Outcome of the stop_camera call: a rejected fetch, or a resolved
response (of any HTTP status, since the body is never read). -/
inductive StopCameraOutcome
  | netError
  | resolvedReply
deriving DecidableEq

/-- stopCamera (App.js lines 232 to 239): the local status is cleared
after the await succeeds; a rejected fetch jumps to the catch block,
which only logs, so nothing local is cleared. -/
def stopCamera (o : StopCameraOutcome) (s : CameraState) : CameraState × List NetRequest :=
  match o with
  | .resolvedReply =>
      ({ s with cameraConnected := false, cameraUrl := "" }, [NetRequest.stopCameraReq])
  | .netError => (s, [NetRequest.stopCameraReq])

/-- C7 counterexample: when the backend stop call fails with a network
error, the locally cached connected flag and URL are left as they were,
refuting the claim that local clearing happens regardless of the
outcome. -/
theorem C7_counterexample :
    (stopCamera StopCameraOutcome.netError cam0).1.cameraConnected = true ∧
    (stopCamera StopCameraOutcome.netError cam0).1.cameraUrl = "http://cam" :=
  ⟨rfl, rfl⟩

/-- C7 amended: stopCamera always issues the backend stop request; the
local connected flag and URL are cleared only when the fetch resolves
(with any HTTP status); on a network error the local state is unchanged
and the failure is only logged. -/
theorem C7_amended_clear_only_on_resolve (s : CameraState) :
    (stopCamera StopCameraOutcome.resolvedReply s).1.cameraConnected = false ∧
    (stopCamera StopCameraOutcome.resolvedReply s).1.cameraUrl = "" ∧
    (stopCamera StopCameraOutcome.netError s).1 = s ∧
    (stopCamera StopCameraOutcome.resolvedReply s).2 = [NetRequest.stopCameraReq] ∧
    (stopCamera StopCameraOutcome.netError s).2 = [NetRequest.stopCameraReq] :=
  ⟨rfl, rfl, rfl, rfl, rfl⟩

/-- C8: a frame with an empty predictions list explicitly clears the
Vision prediction (setMediapipePrediction null, not left unchanged) and
its draw plan still contains the image but no rectangle and no label;
in the machine, completing the decode of such a frame sets the stored
prediction to none whatever it was before. -/
theorem C8_empty_predictions_clear (f : Frame) (h : f.predictions = []) :
    framePredictionUpdate f = none ∧
    (frameDrawPlan f).rect = none ∧
    (frameDrawPlan f).text = none ∧
    (frameDrawPlan f).imageW = 480 ∧
    (∀ (s : AppState) (seq : Nat) (rest : List (Nat × Frame)),
      takePending seq s.pendingDecodes = some (f, rest) →
      (next (Event.decodeComplete seq) s).mediapipePrediction = none) := by
  refine ⟨?_, ?_, ?_, ?_, ?_⟩
  · simp [framePredictionUpdate, h]
  · simp [frameDrawPlan, renderFrame, h]
  · simp [frameDrawPlan, renderFrame, h]
  · simp [frameDrawPlan, renderFrame]
  · intro s seq rest hp
    simp only [next, step, stepCore, hp]
    simp [withVerdict, framePredictionUpdate, h]

/-- C8 witness: the concrete empty frame clears the prediction and draws
no rectangle. -/
theorem C8_witness :
    framePredictionUpdate frameA = none ∧ (frameDrawPlan frameA).rect = none :=
  ⟨(C8_empty_predictions_clear frameA rfl).1, (C8_empty_predictions_clear frameA rfl).2.1⟩

/-- C9: the adapter lifecycle functions are idempotent (starting when
started and stopping when stopped are no-ops with no effects), stopAll
is safe before any start, and along any trace a second consecutive
stopAll, or a second consecutive startAll, changes nothing and emits no
duplicate teardown or setup effects. -/
theorem C9_idempotent :
    (∀ s : AppState, s.flexTimerActive = true → startFlexPolling s = (s, [])) ∧
    (∀ s : AppState, s.flexTimerActive = false → stopFlexPolling s = (s, [])) ∧
    (∀ s : AppState, s.socketActive = true → connectMediapipe s = (s, [])) ∧
    (∀ s : AppState, s.socketActive = false → disconnectMediapipe s = (s, [])) ∧
    step Event.stopAll initState = (initState, []) ∧
    (∀ t : List Event,
      step Event.stopAll (run (t ++ [Event.stopAll])) = (run (t ++ [Event.stopAll]), []) ∧
      step Event.startAll (run (t ++ [Event.startAll])) = (run (t ++ [Event.startAll]), [])) := by
  refine ⟨?_, ?_, ?_, ?_, ?_, ?_⟩
  · intro s h
    simp [startFlexPolling, h]
  · intro s h
    simp [stopFlexPolling, h]
  · intro s h
    simp [connectMediapipe, h]
  · intro s h
    simp [disconnectMediapipe, h]
  · exact step_stopAll_of_stopped initState rfl rfl rfl rfl
  · intro t
    constructor
    · rw [run_snoc]
      exact step_stopAll_of_stopped _ (next_stopAll_flags _).1 (next_stopAll_flags _).2.1
        (next_stopAll_flags _).2.2 (verdictDerived_next _ _ (verdictDerived_run t))
    · rw [run_snoc]
      exact step_startAll_of_started _ (next_startAll_flags _).1 (next_startAll_flags _).2.1
        (next_startAll_flags _).2.2 (verdictDerived_next _ _ (verdictDerived_run t))

/-- C9 witness: starting the Flex poller when its interval already
exists is a no-op with no effects. -/
theorem C9_witness :
    startFlexPolling { initState with flexTimerActive := true } =
      ({ initState with flexTimerActive := true }, []) :=
  C9_idempotent.1 { initState with flexTimerActive := true } rfl

/-- C10: a new_frame event arriving while the canvas is unmounted is
dropped before any decode is requested, leaving the whole state
untouched (so even an empty predictions list clears nothing); and a
new_frame event by itself never changes the Vision prediction, the
verdict or the display: those change only when the decode of a
requested frame completes. -/
theorem C10_unmounted_frame_dropped :
    (∀ (s : AppState) (seq : Nat) (f : Frame),
      s.canvasMounted = false → step (Event.newFrame seq f) s = (s, [])) ∧
    (∀ (t : List Event) (seq : Nat) (f : Frame),
      (run (t ++ [Event.newFrame seq f])).mediapipePrediction = (run t).mediapipePrediction ∧
      (run (t ++ [Event.newFrame seq f])).matchResult = (run t).matchResult ∧
      (run (t ++ [Event.newFrame seq f])).displayedFrame = (run t).displayedFrame ∧
      (run (t ++ [Event.newFrame seq f])).displayedPlan = (run t).displayedPlan ∧
      (run (t ++ [Event.newFrame seq f])).flex = (run t).flex) := by
  constructor
  · intro s seq f h
    unfold step stepCore
    simp [h]
  · intro t seq f
    rw [run_snoc]
    by_cases hg : ((run t).socketActive && (run t).canvasMounted) = true
    · simp only [next, step, stepCore, hg, if_true]
      simp [withVerdict]
      exact (verdictDerived_run t).symm
    · rw [next_of_core_none]
      · exact ⟨rfl, rfl, rfl, rfl, rfl⟩
      · unfold stepCore
        simp [hg]

/-- C10 witness: in the initial state the canvas ref is null, so a
concrete frame event is dropped entirely. -/
theorem C10_witness : step (Event.newFrame 5 frameB) initState = (initState, []) :=
  C10_unmounted_frame_dropped.1 initState 5 frameB rfl

end GestureApp
